import Mathlib

/-!
Shallow embedding of the C++ SQLite wrapper (src/sqlite.hpp, src/sqlite.cpp).

The native SQLite engine is an external collaborator: every wrapper operation
that consults the engine is modelled as a function that additionally receives
the engine's response for the native calls it performs (result codes, written
handles, the connection's diagnostic error state, column metadata, cell
values).  C++ exceptions become the `Except SQErr` channel; the mutable
objects (`SQLite` connection, `SQLite::Statement`) become explicit state
records threaded through the operations.  Each state-mutating operation also
reports the list of primary native entry points it invoked (the diagnostic
queries `sqlite3_errcode` / `sqlite3_extended_errcode` / `sqlite3_errmsg` /
`sqlite3_error_offset` performed during error classification are folded into
the `ErrState` the operation receives, and `sqlite3_db_handle` is a pure
accessor), so that "performs no native call" is expressible.
-/

namespace SQLiteCpp

/-- Primary result codes from sqlite3.h used by the wrapper. -/
def SQLITE_OK : Int := 0

def SQLITE_BUSY : Int := 5

def SQLITE_MISUSE : Int := 21

def SQLITE_ROW : Int := 100

def SQLITE_DONE : Int := 101

/-- The five error kinds of the wrapper (sqlite.hpp lines 15-52).
`error` is the base `SQLite::Error`; `syntaxError`, `busyError` and
`misuseError` extend it; `otherError` is the separate library-level
`SQLite::OtherError` carrying only a message. -/
inductive SQErr where
  | error (message sqlite_errmsg : String) (code extended_code : Int)
  | syntaxError (message sqlite_errmsg : String) (code extended_code : Int)
      (sql : String) (offset : Int)
  | busyError (message sqlite_errmsg : String) (code extended_code : Int)
  | misuseError (message sqlite_errmsg : String) (code extended_code : Int)
  | otherError (message : String)
deriving DecidableEq, Repr

/-- The `what()` string built by the `SQLite::Error` constructor
(sqlite.hpp lines 17-20): `(message.empty() ? "" : message + ", ") +
"SQLite error (" + to_string(code) + "," + to_string(extended_code) + "): "
+ sqlite_errmsg`. -/
def errorWhat (message sqlite_errmsg : String) (code extended_code : Int) : String :=
  (if message.isEmpty then "" else message ++ ", ")
    ++ "SQLite error (" ++ toString code ++ "," ++ toString extended_code ++ "): "
    ++ sqlite_errmsg

/-- The engine's per-connection diagnostic state queried by
`throwSQLiteError`: `sqlite3_errcode`, `sqlite3_extended_errcode`,
`sqlite3_errmsg`, `sqlite3_error_offset`. -/
structure ErrState where
  code : Int
  extended_code : Int
  errmsg : String
  error_offset : Int
deriving DecidableEq, Repr

/-- `throwSQLiteError` (sqlite.cpp lines 23-39).  Reads the diagnostic
state, queries the error offset only when SQL text was supplied
(`sql.empty() ? -1 : sqlite3_error_offset(db)`), raises `SyntaxError`
whenever that offset is `> -1`, and otherwise dispatches on the primary
code: `SQLITE_BUSY` to `BusyError`, `SQLITE_MISUSE` to `MisuseError`,
default to the base `Error`. -/
def throwSQLiteError (st : ErrState) (message : String) (sql : String) : SQErr :=
  let offset : Int := if sql.isEmpty then -1 else st.error_offset
  if offset > -1 then
    .syntaxError message st.errmsg st.code st.extended_code sql offset
  else if st.code = SQLITE_BUSY then
    .busyError message st.errmsg st.code st.extended_code
  else if st.code = SQLITE_MISUSE then
    .misuseError message st.errmsg st.code st.extended_code
  else
    .error message st.errmsg st.code st.extended_code

/-- Result of running one wrapper operation on an object of state type `σ`:
the C++ return value or thrown exception, the object's state after the call
(a thrown exception leaves the object in whatever state the mutations
performed so far produced), and the primary native entry points invoked. -/
structure Outcome (σ : Type) (α : Type) where
  res : Except SQErr α
  post : σ
  calls : List String
deriving Repr

/-- Engine response to one fallible native call: the returned result code
and the connection's diagnostic state afterwards. -/
structure CallResp where
  result : Int
  errState : ErrState
deriving DecidableEq, Repr

/-- State of a `SQLite` connection object: the `sqlite3* db` member
(sqlite.hpp line 279), `none` for `nullptr`; native handles are modelled as
opaque numeric identifiers. -/
structure ConnState where
  db : Option Nat
deriving DecidableEq, Repr

/-- `SQLite::operator bool` (sqlite.hpp line 276): `db != nullptr`. -/
def connBool (c : ConnState) : Bool :=
  c.db.isSome

/-- `SQLite::ensure` (sqlite.hpp line 283): throws
`OtherError("SQLite database connection not initialized")` when `db` is
null. -/
def connEnsure (c : ConnState) : Except SQErr Unit :=
  if c.db = none then .error (.otherError "SQLite database connection not initialized")
  else .ok ()

/-- Engine response to `sqlite3_open_v2`: the result code, the `sqlite3*`
the call wrote through its out-parameter (the engine writes a handle even
on most failures), and the diagnostic state of that written handle. -/
structure OpenResp where
  result : Int
  writtenDb : Option Nat
  errState : ErrState
deriving DecidableEq, Repr

/-- `SQLite::open` (sqlite.cpp lines 59-64): calls `sqlite3_open_v2` with
`&db` as out-parameter, so `db` always becomes whatever the engine wrote;
on a non-OK result it raises via `throwSQLiteError(db, "failed to open
database")` with no SQL text, leaving `db` holding the written pointer. -/
def SQLite.openDb (_c : ConnState) (_dbName : String) (_flags : Int)
    (eng : OpenResp) : Outcome ConnState Unit :=
  if eng.result = SQLITE_OK then
    ⟨.ok (), ⟨eng.writtenDb⟩, ["sqlite3_open_v2"]⟩
  else
    ⟨.error (throwSQLiteError eng.errState "failed to open database" ""),
      ⟨eng.writtenDb⟩, ["sqlite3_open_v2"]⟩

/-- `SQLite::close` (sqlite.cpp lines 66-73): a no-op when `db` is null;
otherwise calls `sqlite3_close`, raising the classified error on failure
(so the `db = nullptr` assignment is skipped) and clearing `db` only on
success. -/
def SQLite.close (c : ConnState) (eng : CallResp) : Outcome ConnState Unit :=
  match c.db with
  | none => ⟨.ok (), c, []⟩
  | some _ =>
    if eng.result = SQLITE_OK then
      ⟨.ok (), ⟨none⟩, ["sqlite3_close"]⟩
    else
      ⟨.error (throwSQLiteError eng.errState "failed to close connection" ""),
        c, ["sqlite3_close"]⟩

/-- `SQLite::~SQLite` (sqlite.cpp lines 75-77): just calls `close()`. -/
def SQLite.destruct (c : ConnState) (eng : CallResp) : Outcome ConnState Unit :=
  SQLite.close c eng

/-- `SQLite::SQLite(SQLite&&)` (sqlite.hpp line 90): the new object takes
`other.db`; the moved-from object's `db` becomes null.  Returns
(constructed object, moved-from object). -/
def SQLite.moveConstruct (other : ConnState) : ConnState × ConnState :=
  (⟨other.db⟩, ⟨none⟩)

/-- `SQLite::exec` (sqlite.cpp lines 321-327): `ensure()`, then
`sqlite3_exec`; a non-OK result raises via classification with the SQL
text attached (so the error-offset check is active). -/
def SQLite.exec (c : ConnState) (sql : String) (eng : CallResp) :
    Outcome ConnState Unit :=
  match c.db with
  | none => ⟨.error (.otherError "SQLite database connection not initialized"), c, []⟩
  | some _ =>
    if eng.result = SQLITE_OK then
      ⟨.ok (), c, ["sqlite3_exec"]⟩
    else
      ⟨.error (throwSQLiteError eng.errState "failed to execute SQL query" sql),
        c, ["sqlite3_exec"]⟩

/-- `SQLite::configureSerialized` (sqlite.cpp lines 46-57): calls
`sqlite3_config(SQLITE_CONFIG_SERIALIZED)` and, on a non-OK result,
RETURNS (does not throw) a base `SQLite::Error` built from
`sqlite3_errstr(result)` with the result code as both primary and
extended code; returns null on success.  `errstr` is the engine's
`sqlite3_errstr` rendering of `result`. -/
def configureSerialized (result : Int) (errstr : String) : Option SQErr :=
  if result ≠ SQLITE_OK then
    some (.error "failed to configure SQLite for serialized threading mode"
      errstr result result)
  else
    none

/-- Model of `std::unordered_map<std::string, int>::operator[] = v`
(insert-or-assign): replace the value of the key if present, otherwise add
a new entry.  The container is modelled as an association list with unique
keys; bucket order is irrelevant because the wrapper only ever looks keys
up. -/
def mapInsert : List (String × Int) → String → Int → List (String × Int)
  | [], k, v => [(k, v)]
  | p :: rest, k, v => if p.1 = k then (k, v) :: rest else p :: mapInsert rest k v

/-- Model of `std::unordered_map<std::string, int>::find`. -/
def mapFind : List (String × Int) → String → Option Int
  | [], _ => none
  | p :: rest, k => if p.1 = k then some p.2 else mapFind rest k

/-- State of a `SQLite::Statement` object: the `sqlite3_stmt* stmt` member
(`none` for `nullptr`) and the `columnIndices` map (sqlite.hpp lines
253-255). -/
structure StmtState where
  stmt : Option Nat
  columnIndices : List (String × Int)
deriving DecidableEq, Repr

/-- `SQLite::Statement::operator bool` (sqlite.hpp line 250):
`stmt != nullptr`. -/
def Statement.stmtBool (s : StmtState) : Bool :=
  s.stmt.isSome

/-- The `OtherError` thrown by `SQLite::Statement::ensure`
(sqlite.hpp line 268). -/
def stmtNotInit : SQErr :=
  .otherError "SQLite statement not initialized"

/-- `SQLite::Statement::initializeColumnIndices` (sqlite.cpp lines
132-140): for `i` from 0 to `sqlite3_column_count(stmt) - 1`, read
`sqlite3_column_name(stmt, i)` (which may be a null pointer, modelled as
`none`) and, when non-null, assign `columnIndices[columnName] = i`.
`columnNames` is the engine's column-name metadata indexed by position. -/
def initializeColumnIndices (columnNames : List (Option String)) :
    List (String × Int) :=
  columnNames.enum.foldl
    (fun m p =>
      match p.2 with
      | some name => mapInsert m name (Int.ofNat p.1)
      | none => m)
    []

/-- Engine response to `sqlite3_prepare_v3`: the result code, the
`sqlite3_stmt*` written through the out-parameter, the column-name
metadata of the prepared statement, and the connection's diagnostic
state. -/
structure PrepareResp where
  result : Int
  writtenStmt : Option Nat
  columnNames : List (Option String)
  errState : ErrState
deriving DecidableEq, Repr

/-- `SQLite::Statement::Statement(sqlite3*, const std::string&, bool)`
(sqlite.cpp lines 96-102): `sqlite3_prepare_v3` with
`SQLITE_PREPARE_PERSISTENT` when `persistent`; a non-OK result raises via
classification with the SQL text attached; on success the column-index
map is built once from the engine's column metadata. -/
def Statement.construct (sql : String) (_persistent : Bool) (eng : PrepareResp) :
    Except SQErr StmtState :=
  if eng.result = SQLITE_OK then
    .ok ⟨eng.writtenStmt, initializeColumnIndices eng.columnNames⟩
  else
    .error (throwSQLiteError eng.errState "failed to prepare statement" sql)

/-- `SQLite::prepare` (sqlite.hpp line 271): `ensure()` on the connection,
then construct a `Statement` from its handle. -/
def SQLite.prepare (c : ConnState) (sql : String) (persistent : Bool)
    (eng : PrepareResp) : Except SQErr StmtState :=
  match c.db with
  | none => .error (.otherError "SQLite database connection not initialized")
  | some _ => Statement.construct sql persistent eng

/-- `SQLite::Statement::Statement(Statement&&)` (sqlite.cpp lines
108-110): the new object takes `other.stmt` and COPIES
`other.columnIndices` (the member initializer copies, it does not move);
only `other.stmt` is nulled.  Returns (constructed, moved-from). -/
def Statement.moveConstruct (other : StmtState) : StmtState × StmtState :=
  (⟨other.stmt, other.columnIndices⟩, ⟨none, other.columnIndices⟩)

/-- `SQLite::Statement::finalize` (sqlite.cpp lines 123-130): a no-op when
`stmt` is null; otherwise `sqlite3_finalize`, raising the classified
error on failure (skipping the null assignment) and clearing `stmt` only
on success. -/
def Statement.finalize (s : StmtState) (eng : CallResp) :
    Outcome StmtState Unit :=
  match s.stmt with
  | none => ⟨.ok (), s, []⟩
  | some _ =>
    if eng.result = SQLITE_OK then
      ⟨.ok (), ⟨none, s.columnIndices⟩, ["sqlite3_finalize"]⟩
    else
      ⟨.error (throwSQLiteError eng.errState "failed to finalize statement" ""),
        s, ["sqlite3_finalize"]⟩

/-- `SQLite::Statement::~Statement` (sqlite.cpp lines 104-106): just calls
`finalize()`. -/
def Statement.destruct (s : StmtState) (eng : CallResp) :
    Outcome StmtState Unit :=
  Statement.finalize s eng

/-- `SQLite::Statement::getColumnIndex` (sqlite.cpp lines 142-148): looks
the name up in the cached `columnIndices` map — with NO `ensure()` call
and no native call — returning the cached index, or throwing
`OtherError("column not found: " + name)` when absent. -/
def Statement.getColumnIndex (s : StmtState) (columnName : String) :
    Except SQErr Int :=
  match mapFind s.columnIndices columnName with
  | some i => .ok i
  | none => .error (.otherError ("column not found: " ++ columnName))

/-- `SQLite::Statement::getParamIndex` (sqlite.cpp lines 150-157):
`ensure()`, then `sqlite3_bind_parameter_index`; an index of 0 means the
name is unknown and raises `OtherError("parameter not found: " + name)`.
`engIndex` is the engine's answer. -/
def Statement.getParamIndex (s : StmtState) (paramName : String)
    (engIndex : Int) : Outcome StmtState Int :=
  match s.stmt with
  | none => ⟨.error stmtNotInit, s, []⟩
  | some _ =>
    if engIndex = 0 then
      ⟨.error (.otherError ("parameter not found: " ++ paramName)),
        s, ["sqlite3_bind_parameter_index"]⟩
    else
      ⟨.ok engIndex, s, ["sqlite3_bind_parameter_index"]⟩

/-- `SQLite::Statement::getParamName` (sqlite.cpp lines 159-166):
`ensure()`, then `sqlite3_bind_parameter_name`; a null pointer (`none`)
yields the empty string, the documented value for positional or
out-of-range parameters. -/
def Statement.getParamName (s : StmtState) (_index : Int)
    (engName : Option String) : Outcome StmtState String :=
  match s.stmt with
  | none => ⟨.error stmtNotInit, s, []⟩
  | some _ =>
    match engName with
    | some name => ⟨.ok name, s, ["sqlite3_bind_parameter_name"]⟩
    | none => ⟨.ok "", s, ["sqlite3_bind_parameter_name"]⟩

/-- Shared shape of the five `SQLite::Statement::bind(int, ...)` overloads
(sqlite.cpp lines 168-201) and of `reset` / `clearBindings` (lines
307-319): `ensure()`, one native call, raise the classified error (no SQL
text) on a non-OK result.  `call` names the native entry point and `ctx`
the context message of the overload. -/
def Statement.nativeCheckedCall (s : StmtState) (call ctx : String)
    (eng : CallResp) : Outcome StmtState Unit :=
  match s.stmt with
  | none => ⟨.error stmtNotInit, s, []⟩
  | some _ =>
    if eng.result = SQLITE_OK then
      ⟨.ok (), s, [call]⟩
    else
      ⟨.error (throwSQLiteError eng.errState ctx ""), s, [call]⟩

/-- `SQLite::Statement::bind(int, int)` (sqlite.cpp lines 168-173). -/
def Statement.bindInt (s : StmtState) (_index : Int) (_value : Int)
    (eng : CallResp) : Outcome StmtState Unit :=
  Statement.nativeCheckedCall s "sqlite3_bind_int" "failed to bind int" eng

/-- `SQLite::Statement::bind(int, const std::string&)` (sqlite.cpp lines
189-194). -/
def Statement.bindText (s : StmtState) (_index : Int) (_value : String)
    (eng : CallResp) : Outcome StmtState Unit :=
  Statement.nativeCheckedCall s "sqlite3_bind_text" "failed to bind text" eng

/-- `SQLite::Statement::reset` (sqlite.cpp lines 307-312). -/
def Statement.reset (s : StmtState) (eng : CallResp) : Outcome StmtState Unit :=
  Statement.nativeCheckedCall s "sqlite3_reset" "failed to reset statement" eng

/-- `SQLite::Statement::clearBindings` (sqlite.cpp lines 314-319). -/
def Statement.clearBindings (s : StmtState) (eng : CallResp) :
    Outcome StmtState Unit :=
  Statement.nativeCheckedCall s "sqlite3_clear_bindings" "failed to clear bindings" eng

/-- `SQLite::Statement::step` (sqlite.cpp lines 294-305): `ensure()`, then
`sqlite3_step`; `SQLITE_ROW` returns true, `SQLITE_DONE` returns false,
anything else raises the classified error (no SQL text). -/
def Statement.step (s : StmtState) (eng : CallResp) : Outcome StmtState Bool :=
  match s.stmt with
  | none => ⟨.error stmtNotInit, s, []⟩
  | some _ =>
    if eng.result = SQLITE_ROW then
      ⟨.ok true, s, ["sqlite3_step"]⟩
    else if eng.result = SQLITE_DONE then
      ⟨.ok false, s, ["sqlite3_step"]⟩
    else
      ⟨.error (throwSQLiteError eng.errState "failed to step statement" ""),
        s, ["sqlite3_step"]⟩

/-- `SQLite::Statement::columnCount` (sqlite.cpp lines 203-206):
`ensure()`, then `sqlite3_column_count`. -/
def Statement.columnCount (s : StmtState) (engCount : Int) :
    Outcome StmtState Int :=
  match s.stmt with
  | none => ⟨.error stmtNotInit, s, []⟩
  | some _ => ⟨.ok engCount, s, ["sqlite3_column_count"]⟩

/-- The `DataType` enumeration (sqlite.hpp lines 68-74). -/
inductive DataType where
  | Integer
  | Float
  | Text
  | Blob
  | Null
deriving DecidableEq, Repr

/-- `SQLite::Statement::getColumnType` (sqlite.cpp lines 208-218):
`ensure()`, then map the engine's `sqlite3_column_type` fundamental-type
code (SQLITE_INTEGER=1, FLOAT=2, TEXT=3, BLOB=4, NULL=5); any other code
raises `OtherError("unknown column type")`. -/
def Statement.getColumnType (s : StmtState) (_index : Int) (engType : Int) :
    Outcome StmtState DataType :=
  match s.stmt with
  | none => ⟨.error stmtNotInit, s, []⟩
  | some _ =>
    if engType = 1 then ⟨.ok .Integer, s, ["sqlite3_column_type"]⟩
    else if engType = 2 then ⟨.ok .Float, s, ["sqlite3_column_type"]⟩
    else if engType = 3 then ⟨.ok .Text, s, ["sqlite3_column_type"]⟩
    else if engType = 4 then ⟨.ok .Blob, s, ["sqlite3_column_type"]⟩
    else if engType = 5 then ⟨.ok .Null, s, ["sqlite3_column_type"]⟩
    else ⟨.error (.otherError "unknown column type"), s, ["sqlite3_column_type"]⟩

/-- `SQLite::Statement::getColumnName` (sqlite.cpp lines 226-230):
`ensure()`, then `sqlite3_column_name`; a null pointer yields the empty
string.  (`getColumnDeclType`, lines 220-224, has the identical shape
over `sqlite3_column_decltype`.) -/
def Statement.getColumnName (s : StmtState) (_index : Int)
    (engName : Option String) : Outcome StmtState String :=
  match s.stmt with
  | none => ⟨.error stmtNotInit, s, []⟩
  | some _ =>
    match engName with
    | some name => ⟨.ok name, s, ["sqlite3_column_name"]⟩
    | none => ⟨.ok "", s, ["sqlite3_column_name"]⟩

/-- The `Blob` value type (sqlite.hpp lines 77-80): a borrowed
(pointer, size) pair; `data = none` models a null pointer. -/
structure Blob where
  data : Option Nat
  size : Int
deriving DecidableEq, Repr

/-- The engine's responses for the column-read accessors at one
(row, index): the already-coerced values `sqlite3_column_int`,
`sqlite3_column_int64` and `sqlite3_column_double` would return (the
double as an uninterpreted 64-bit pattern, passed through untouched by
the wrapper), the text buffer `sqlite3_column_text` returns (`none` for
a null pointer; a non-null buffer is modelled as the string of the
`sqlite3_column_bytes` bytes it holds), the `sqlite3_column_blob`
pointer, and `sqlite3_column_bytes`. -/
structure ColumnCell where
  intVal : Int
  int64Val : Int
  doubleBits : Nat
  text : Option String
  blobData : Option Nat
  bytes : Int
deriving DecidableEq, Repr

/-- `SQLite::Statement::getInt` (sqlite.cpp lines 263-266): `ensure()`,
then return `sqlite3_column_int` unchanged. -/
def Statement.getInt (s : StmtState) (_index : Int) (cell : ColumnCell) :
    Outcome StmtState Int :=
  match s.stmt with
  | none => ⟨.error stmtNotInit, s, []⟩
  | some _ => ⟨.ok cell.intVal, s, ["sqlite3_column_int"]⟩

/-- `SQLite::Statement::getInt64` (sqlite.cpp lines 268-271). -/
def Statement.getInt64 (s : StmtState) (_index : Int) (cell : ColumnCell) :
    Outcome StmtState Int :=
  match s.stmt with
  | none => ⟨.error stmtNotInit, s, []⟩
  | some _ => ⟨.ok cell.int64Val, s, ["sqlite3_column_int64"]⟩

/-- `SQLite::Statement::getDouble` (sqlite.cpp lines 273-276): the engine's
double is returned bit-for-bit unchanged. -/
def Statement.getDouble (s : StmtState) (_index : Int) (cell : ColumnCell) :
    Outcome StmtState Nat :=
  match s.stmt with
  | none => ⟨.error stmtNotInit, s, []⟩
  | some _ => ⟨.ok cell.doubleBits, s, ["sqlite3_column_double"]⟩

/-- `SQLite::Statement::getString` (sqlite.cpp lines 278-283): `ensure()`,
read `sqlite3_column_text` and `sqlite3_column_bytes`, and return
`std::string(text, size)` for a non-null pointer or the empty string for
a null one. -/
def Statement.getString (s : StmtState) (_index : Int) (cell : ColumnCell) :
    Outcome StmtState String :=
  match s.stmt with
  | none => ⟨.error stmtNotInit, s, []⟩
  | some _ =>
    match cell.text with
    | some t => ⟨.ok t, s, ["sqlite3_column_text", "sqlite3_column_bytes"]⟩
    | none => ⟨.ok "", s, ["sqlite3_column_text", "sqlite3_column_bytes"]⟩

/-- `SQLite::Statement::getBlob` (sqlite.cpp lines 285-291): `ensure()`,
then return the `sqlite3_column_blob` pointer and `sqlite3_column_bytes`
size verbatim as a `Blob`. -/
def Statement.getBlob (s : StmtState) (_index : Int) (cell : ColumnCell) :
    Outcome StmtState Blob :=
  match s.stmt with
  | none => ⟨.error stmtNotInit, s, []⟩
  | some _ =>
    ⟨.ok ⟨cell.blobData, cell.bytes⟩, s,
      ["sqlite3_column_blob", "sqlite3_column_bytes"]⟩

/-- Specification-side characterization of duplicate-name resolution: the
index of the LAST column position whose engine-reported name equals `n`
(`none` when no column carries that name). -/
def lastColumnOcc (columnNames : List (Option String)) (n : String) : Option Int :=
  columnNames.enum.foldl
    (fun acc p => if p.2 = some n then some (Int.ofNat p.1) else acc)
    none

/-! ## Helper lemmas -/

theorem mapFind_insert (m : List (String × Int)) (k k' : String) (v : Int) :
    mapFind (mapInsert m k v) k' = if k = k' then some v else mapFind m k' := by
  induction m with
  | nil =>
    by_cases h : k = k' <;> simp [mapInsert, mapFind, h]
  | cons p rest ih =>
    by_cases hk : k = k'
    · subst hk
      by_cases hp : p.1 = k <;> simp [mapInsert, mapFind, hp, ih]
    · have hk2 : ¬ k' = k := fun hcon => hk hcon.symm
      by_cases hp : p.1 = k
      · have hpk : ¬ p.1 = k' := fun hcon => hk (hp.symm.trans hcon)
        simp [mapInsert, mapFind, hp, hk, hk2, hpk]
      · by_cases hpk : p.1 = k' <;> simp [mapInsert, mapFind, hp, hk, hk2, hpk, ih]

theorem mapFind_foldl_insert (l : List (Nat × Option String))
    (m : List (String × Int)) (n : String) :
    mapFind
      (l.foldl
        (fun m p =>
          match p.2 with
          | some name => mapInsert m name (Int.ofNat p.1)
          | none => m)
        m) n
      = l.foldl
          (fun acc p => if p.2 = some n then some (Int.ofNat p.1) else acc)
          (mapFind m n) := by
  induction l generalizing m with
  | nil => rfl
  | cons hd tl ih =>
    obtain ⟨i, oname⟩ := hd
    cases oname with
    | none => simp only [List.foldl_cons]; rw [ih]; simp
    | some name =>
      simp only [List.foldl_cons]
      rw [ih, mapFind_insert]
      by_cases hn : name = n
      · subst hn; simp
      · simp [hn]

theorem mapFind_initializeColumnIndices (columnNames : List (Option String))
    (n : String) :
    mapFind (initializeColumnIndices columnNames) n = lastColumnOcc columnNames n := by
  unfold initializeColumnIndices lastColumnOcc
  exact mapFind_foldl_insert columnNames.enum [] n

theorem step_post (s : StmtState) (eng : CallResp) :
    (Statement.step s eng).post = s := by
  obtain ⟨st, m⟩ := s
  cases st with
  | none => rfl
  | some h =>
    simp only [Statement.step]
    split
    · rfl
    · split <;> rfl

theorem nativeCheckedCall_post (s : StmtState) (call ctx : String)
    (eng : CallResp) : (Statement.nativeCheckedCall s call ctx eng).post = s := by
  obtain ⟨st, m⟩ := s
  cases st with
  | none => rfl
  | some h =>
    by_cases h1 : eng.result = SQLITE_OK <;> simp [Statement.nativeCheckedCall, h1]

theorem getString_post (s : StmtState) (i : Int) (cell : ColumnCell) :
    (Statement.getString s i cell).post = s := by
  obtain ⟨st, m⟩ := s
  cases st with
  | none => rfl
  | some h => cases htext : cell.text <;> simp [Statement.getString, htext]

theorem finalize_post_columnIndices (s : StmtState) (eng : CallResp) :
    (Statement.finalize s eng).post.columnIndices = s.columnIndices := by
  obtain ⟨st, m⟩ := s
  cases st with
  | none => rfl
  | some h =>
    by_cases h1 : eng.result = SQLITE_OK <;> simp [Statement.finalize, h1]

/-! ## Claim theorems -/

/-- C1: for every failing engine call that was given SQL text, the
classification first queries the engine's error offset; a non-negative
offset raises `SyntaxError` regardless of the primary code, and otherwise
it dispatches on the primary code — busy to `BusyError`, misuse to
`MisuseError`, anything else to the base `Error`. -/
theorem C1_error_classification (st : ErrState) (message sql : String)
    (hsql : sql ≠ "") :
    (0 ≤ st.error_offset →
      throwSQLiteError st message sql =
        .syntaxError message st.errmsg st.code st.extended_code sql
          st.error_offset) ∧
    (st.error_offset < 0 →
      throwSQLiteError st message sql =
        if st.code = SQLITE_BUSY then
          .busyError message st.errmsg st.code st.extended_code
        else if st.code = SQLITE_MISUSE then
          .misuseError message st.errmsg st.code st.extended_code
        else
          .error message st.errmsg st.code st.extended_code) := by
  have hie : sql.isEmpty = false := by
    cases hb : sql.isEmpty
    · rfl
    · exact absurd ((String.isEmpty_iff _).mp hb) hsql
  constructor
  · intro hoff
    unfold throwSQLiteError
    rw [hie]
    simp only [Bool.false_eq_true, if_false]
    rw [if_pos (by omega)]
  · intro hoff
    unfold throwSQLiteError
    rw [hie]
    simp only [Bool.false_eq_true, if_false]
    rw [if_neg (by omega)]

/-- Witness for C1 at a concrete failed preparation with offset 0. -/
theorem C1_error_classification_witness :
    ("SELEC 1" : String) ≠ "" ∧
    throwSQLiteError ⟨1, 1, "near SELEC: syntax error", 0⟩
        "failed to prepare statement" "SELEC 1" =
      .syntaxError "failed to prepare statement" "near SELEC: syntax error"
        1 1 "SELEC 1" 0 :=
  ⟨by decide,
    (C1_error_classification ⟨1, 1, "near SELEC: syntax error", 0⟩
      "failed to prepare statement" "SELEC 1" (by decide)).1 (by decide)⟩

/-- C9: the base error's what-message is
"<context>, SQLite error (<code>,<extended_code>): <engine message>" for a
non-empty context and drops the context segment (with its comma) for an
empty one. -/
theorem C9_error_what (message sqlite_errmsg : String)
    (code extended_code : Int) :
    (message ≠ "" →
      errorWhat message sqlite_errmsg code extended_code =
        (message ++ ", ") ++ "SQLite error (" ++ toString code ++ ","
          ++ toString extended_code ++ "): " ++ sqlite_errmsg) ∧
    (message = "" →
      errorWhat message sqlite_errmsg code extended_code =
        "SQLite error (" ++ toString code ++ ","
          ++ toString extended_code ++ "): " ++ sqlite_errmsg) := by
  constructor
  · intro hne
    have hie : message.isEmpty = false := by
      cases hb : message.isEmpty
      · rfl
      · exact absurd ((String.isEmpty_iff _).mp hb) hne
    unfold errorWhat
    rw [hie]
    simp only [Bool.false_eq_true, if_false]
  · intro he
    subst he
    unfold errorWhat
    simp [String.isEmpty_iff, String.empty_append]

/-- Witness for C9 at concrete inputs, both cases evaluated. -/
theorem C9_error_what_witness :
    errorWhat "ctx" "disk I/O error" 10 266 =
      "ctx, SQLite error (10,266): disk I/O error" ∧
    errorWhat "" "disk I/O error" 10 266 =
      "SQLite error (10,266): disk I/O error" :=
  ⟨((C9_error_what "ctx" "disk I/O error" 10 266).1 (by decide)).trans
      (by decide),
    ((C9_error_what "" "disk I/O error" 10 266).2 rfl).trans (by decide)⟩

/-- C4: `close()` is a no-op on an already-closed connection (for any
engine behaviour, with no native call); a failing engine close raises the
classified error and leaves the handle unchanged and non-empty; the
handle is cleared only on success. -/
theorem C4_close_idempotent_retryable :
    (∀ eng : CallResp,
      SQLite.close ⟨none⟩ eng = ⟨.ok (), ⟨none⟩, []⟩) ∧
    (∀ (h : Nat) (eng : CallResp), eng.result ≠ SQLITE_OK →
      SQLite.close ⟨some h⟩ eng =
        ⟨.error (throwSQLiteError eng.errState "failed to close connection" ""),
          ⟨some h⟩, ["sqlite3_close"]⟩) ∧
    (∀ (h : Nat) (eng : CallResp), eng.result = SQLITE_OK →
      SQLite.close ⟨some h⟩ eng = ⟨.ok (), ⟨none⟩, ["sqlite3_close"]⟩) := by
  refine ⟨fun eng => rfl, fun h eng hne => ?_, fun h eng heq => ?_⟩
  · simp [SQLite.close, hne]
  · simp [SQLite.close, heq]

/-- Witness for C4: a concrete failing close (SQLITE_BUSY) leaves the
handle in place. -/
theorem C4_close_witness :
    (5 : Int) ≠ SQLITE_OK ∧
    SQLite.close ⟨some 7⟩ ⟨5, ⟨5, 5, "unable to close due to unfinalized statements", -1⟩⟩ =
      ⟨.error (throwSQLiteError ⟨5, 5, "unable to close due to unfinalized statements", -1⟩
          "failed to close connection" ""),
        ⟨some 7⟩, ["sqlite3_close"]⟩ :=
  ⟨by decide,
    C4_close_idempotent_retryable.2.1 7
      ⟨5, ⟨5, 5, "unable to close due to unfinalized statements", -1⟩⟩
      (by decide)⟩

/-- C5: `step()` returns true on SQLITE_ROW, false on SQLITE_DONE, and for
any other engine outcome raises the classified error instead of
returning. -/
theorem C5_step_semantics (s : StmtState) (h : Nat) (eng : CallResp)
    (hs : s.stmt = some h) :
    (eng.result = SQLITE_ROW →
      Statement.step s eng = ⟨.ok true, s, ["sqlite3_step"]⟩) ∧
    (eng.result = SQLITE_DONE →
      Statement.step s eng = ⟨.ok false, s, ["sqlite3_step"]⟩) ∧
    (eng.result ≠ SQLITE_ROW → eng.result ≠ SQLITE_DONE →
      Statement.step s eng =
        ⟨.error (throwSQLiteError eng.errState "failed to step statement" ""),
          s, ["sqlite3_step"]⟩) := by
  obtain ⟨st, m⟩ := s
  cases hs
  refine ⟨fun h1 => ?_, fun h1 => ?_, fun h1 h2 => ?_⟩
  · simp [Statement.step, h1]
  · simp [Statement.step, SQLITE_ROW, SQLITE_DONE] at h1 ⊢
    simp [h1]
  · simp [Statement.step, SQLITE_ROW, SQLITE_DONE] at h1 h2 ⊢
    simp [h1, h2]

/-- Witness for C5: a concrete SQLITE_ROW outcome yields true. -/
theorem C5_step_semantics_witness :
    (⟨some 3, []⟩ : StmtState).stmt = some 3 ∧
    Statement.step ⟨some 3, []⟩ ⟨SQLITE_ROW, ⟨0, 0, "not an error", -1⟩⟩ =
      ⟨.ok true, ⟨some 3, []⟩, ["sqlite3_step"]⟩ :=
  ⟨rfl,
    (C5_step_semantics ⟨some 3, []⟩ 3 ⟨SQLITE_ROW, ⟨0, 0, "not an error", -1⟩⟩
      rfl).1 rfl⟩

/-- C2 counterexample: `getColumnIndex` is a public Statement operation
other than move/destroy/finalize, yet on a null-handle statement whose
cached map still holds an entry (the state a move constructor leaves
behind) it SUCCEEDS instead of raising OtherError ("not initialized");
it consults only the cached map and never checks the handle. -/
theorem C2_counterexample :
    Statement.getColumnIndex ⟨none, [("a", 0)]⟩ "a" = .ok 0 ∧
    ∀ e : SQErr, Statement.getColumnIndex ⟨none, [("a", 0)]⟩ "a" ≠ .error e :=
  ⟨rfl, fun _ hcon => Except.noConfusion hcon⟩

/-- C2 amended: every public operation that touches the native handle —
other than move, destruction, finalize/close, and open (which installs a
new handle) — first checks the handle and, when it is null, raises
OtherError ("not initialized") with no native call performed and the
state unchanged; `getColumnIndex` (and the handle-state queries
`operator bool`) never consult the handle at all, `getColumnIndex`
resolving purely against the cached name map. -/
theorem C2_null_handle_guard (s : StmtState) (hs : s.stmt = none)
    (c : ConnState) (hc : c.db = none) :
    (∀ i v eng, Statement.bindInt s i v eng = ⟨.error stmtNotInit, s, []⟩) ∧
    (∀ i v eng, Statement.bindText s i v eng = ⟨.error stmtNotInit, s, []⟩) ∧
    (∀ eng, Statement.step s eng = ⟨.error stmtNotInit, s, []⟩) ∧
    (∀ eng, Statement.reset s eng = ⟨.error stmtNotInit, s, []⟩) ∧
    (∀ eng, Statement.clearBindings s eng = ⟨.error stmtNotInit, s, []⟩) ∧
    (∀ n, Statement.columnCount s n = ⟨.error stmtNotInit, s, []⟩) ∧
    (∀ i t, Statement.getColumnType s i t = ⟨.error stmtNotInit, s, []⟩) ∧
    (∀ i nm, Statement.getColumnName s i nm = ⟨.error stmtNotInit, s, []⟩) ∧
    (∀ nm i, Statement.getParamIndex s nm i = ⟨.error stmtNotInit, s, []⟩) ∧
    (∀ i nm, Statement.getParamName s i nm = ⟨.error stmtNotInit, s, []⟩) ∧
    (∀ i cell, Statement.getInt s i cell = ⟨.error stmtNotInit, s, []⟩) ∧
    (∀ i cell, Statement.getInt64 s i cell = ⟨.error stmtNotInit, s, []⟩) ∧
    (∀ i cell, Statement.getDouble s i cell = ⟨.error stmtNotInit, s, []⟩) ∧
    (∀ i cell, Statement.getString s i cell = ⟨.error stmtNotInit, s, []⟩) ∧
    (∀ i cell, Statement.getBlob s i cell = ⟨.error stmtNotInit, s, []⟩) ∧
    (∀ sql eng, SQLite.exec c sql eng =
      ⟨.error (.otherError "SQLite database connection not initialized"), c, []⟩) ∧
    (∀ sql p eng, SQLite.prepare c sql p eng =
      .error (.otherError "SQLite database connection not initialized")) := by
  obtain ⟨st, m⟩ := s
  cases hs
  obtain ⟨db0⟩ := c
  cases hc
  exact ⟨fun _ _ _ => rfl, fun _ _ _ => rfl, fun _ => rfl, fun _ => rfl,
    fun _ => rfl, fun _ => rfl, fun _ _ => rfl, fun _ _ => rfl,
    fun _ _ => rfl, fun _ _ => rfl, fun _ _ => rfl, fun _ _ => rfl,
    fun _ _ => rfl, fun _ _ => rfl, fun _ _ => rfl, fun _ _ => rfl,
    fun _ _ _ => rfl⟩

/-- Witness for the amended C2 on a concrete null-handle statement and
connection. -/
theorem C2_null_handle_guard_witness :
    (⟨none, []⟩ : StmtState).stmt = none ∧
    Statement.step ⟨none, []⟩ ⟨SQLITE_ROW, ⟨0, 0, "", -1⟩⟩ =
      ⟨.error stmtNotInit, ⟨none, []⟩, []⟩ :=
  ⟨rfl,
    (C2_null_handle_guard ⟨none, []⟩ rfl ⟨none⟩ rfl).2.2.1
      ⟨SQLITE_ROW, ⟨0, 0, "", -1⟩⟩⟩

/-- C3 counterexample: a Statement moved from by move construction keeps a
COPY of its column-index map while its handle is nulled, so the further
use `getColumnIndex` on the moved-from object succeeds (returns the
cached index) instead of raising OtherError ("not initialized"). -/
theorem C3_counterexample :
    (Statement.moveConstruct ⟨some 3, [("id", 0)]⟩).2.stmt = none ∧
    Statement.getColumnIndex (Statement.moveConstruct ⟨some 3, [("id", 0)]⟩).2
      "id" = .ok 0 :=
  ⟨rfl, rfl⟩

/-- C3 amended: after a move, the moved-from Connection or Statement has a
null handle; every further handle-touching use (step, binds, reads,
introspection, param lookups; prepare/exec on a connection) raises
OtherError ("not initialized") with no native call, while `getColumnIndex`
still resolves names against the copied cached map exactly as the source
statement did and destruction performs no native call and raises
nothing. -/
theorem C3_moved_from_state (t : StmtState) (c : ConnState) :
    ((Statement.moveConstruct t).2.stmt = none) ∧
    ((Statement.moveConstruct t).1 = ⟨t.stmt, t.columnIndices⟩) ∧
    (∀ eng, Statement.step (Statement.moveConstruct t).2 eng =
      ⟨.error stmtNotInit, (Statement.moveConstruct t).2, []⟩) ∧
    (∀ i v eng, Statement.bindInt (Statement.moveConstruct t).2 i v eng =
      ⟨.error stmtNotInit, (Statement.moveConstruct t).2, []⟩) ∧
    (∀ i cell, Statement.getInt (Statement.moveConstruct t).2 i cell =
      ⟨.error stmtNotInit, (Statement.moveConstruct t).2, []⟩) ∧
    (∀ eng, Statement.reset (Statement.moveConstruct t).2 eng =
      ⟨.error stmtNotInit, (Statement.moveConstruct t).2, []⟩) ∧
    (∀ n, Statement.getColumnIndex (Statement.moveConstruct t).2 n =
      Statement.getColumnIndex t n) ∧
    (∀ eng, Statement.destruct (Statement.moveConstruct t).2 eng =
      ⟨.ok (), (Statement.moveConstruct t).2, []⟩) ∧
    ((SQLite.moveConstruct c).2.db = none) ∧
    ((SQLite.moveConstruct c).1 = ⟨c.db⟩) ∧
    (∀ sql p eng, SQLite.prepare (SQLite.moveConstruct c).2 sql p eng =
      .error (.otherError "SQLite database connection not initialized")) ∧
    (∀ sql eng, SQLite.exec (SQLite.moveConstruct c).2 sql eng =
      ⟨.error (.otherError "SQLite database connection not initialized"),
        (SQLite.moveConstruct c).2, []⟩) ∧
    (∀ eng, SQLite.destruct (SQLite.moveConstruct c).2 eng =
      ⟨.ok (), (SQLite.moveConstruct c).2, []⟩) :=
  ⟨rfl, rfl, fun _ => rfl, fun _ _ _ => rfl, fun _ _ => rfl, fun _ => rfl,
    fun _ => rfl, fun _ => rfl, rfl, rfl, fun _ _ _ => rfl, fun _ _ => rfl,
    fun _ => rfl⟩

/-- C6: every failure a public operation can raise is one of the five
error kinds — the `SQErr` taxonomy is closed — and the one operation with
a result-style error channel, `configureSerialized`, returns nothing on
success and its documented classified base `Error` (built from the
result code as both primary and extended code) on failure. -/
theorem C6_error_taxonomy_closed :
    (∀ e : SQErr,
      (∃ m em c ec, e = .error m em c ec) ∨
      (∃ m em c ec sql off, e = .syntaxError m em c ec sql off) ∨
      (∃ m em c ec, e = .busyError m em c ec) ∨
      (∃ m em c ec, e = .misuseError m em c ec) ∨
      (∃ m, e = .otherError m)) ∧
    (∀ errstr, configureSerialized SQLITE_OK errstr = none) ∧
    (∀ result errstr, result ≠ SQLITE_OK →
      configureSerialized result errstr =
        some (.error "failed to configure SQLite for serialized threading mode"
          errstr result result)) := by
  refine ⟨fun e => ?_, fun errstr => ?_, fun result errstr hne => ?_⟩
  · cases e with
    | error m em c ec => exact .inl ⟨m, em, c, ec, rfl⟩
    | syntaxError m em c ec sql off =>
      exact .inr (.inl ⟨m, em, c, ec, sql, off, rfl⟩)
    | busyError m em c ec => exact .inr (.inr (.inl ⟨m, em, c, ec, rfl⟩))
    | misuseError m em c ec =>
      exact .inr (.inr (.inr (.inl ⟨m, em, c, ec, rfl⟩)))
    | otherError m => exact .inr (.inr (.inr (.inr ⟨m, rfl⟩)))
  · simp [configureSerialized]
  · simp [configureSerialized, hne]

/-- Witness for C6 at a concrete failing configure call. -/
theorem C6_error_taxonomy_closed_witness :
    (1 : Int) ≠ SQLITE_OK ∧
    configureSerialized 1 "SQL logic error" =
      some (.error "failed to configure SQLite for serialized threading mode"
        "SQL logic error" 1 1) :=
  ⟨by decide, C6_error_taxonomy_closed.2.2 1 "SQL logic error" (by decide)⟩

/-- C7: the column name-to-index map of a successfully prepared Statement
is exactly the one built by `initializeColumnIndices` from the engine's
column metadata; no operation other than move replaces it; looking a name
up yields the LAST column position carrying that name (the map's
overwrite order), and `getColumnIndex` returns the cached index for
mapped names and raises OtherError for any other name. -/
theorem C7_column_indices (sql : String) (p : Bool) (eng : PrepareResp)
    (st : StmtState) (hok : Statement.construct sql p eng = .ok st) :
    (st.columnIndices = initializeColumnIndices eng.columnNames) ∧
    (∀ n, mapFind st.columnIndices n = lastColumnOcc eng.columnNames n) ∧
    (∀ eng2, (Statement.step st eng2).post.columnIndices = st.columnIndices) ∧
    (∀ i v eng2,
      (Statement.bindInt st i v eng2).post.columnIndices = st.columnIndices) ∧
    (∀ i v eng2,
      (Statement.bindText st i v eng2).post.columnIndices = st.columnIndices) ∧
    (∀ eng2, (Statement.reset st eng2).post.columnIndices = st.columnIndices) ∧
    (∀ eng2,
      (Statement.clearBindings st eng2).post.columnIndices = st.columnIndices) ∧
    (∀ i cell,
      (Statement.getString st i cell).post.columnIndices = st.columnIndices) ∧
    (∀ eng2,
      (Statement.finalize st eng2).post.columnIndices = st.columnIndices) ∧
    (∀ n i, mapFind st.columnIndices n = some i →
      Statement.getColumnIndex st n = .ok i) ∧
    (∀ n, mapFind st.columnIndices n = none →
      Statement.getColumnIndex st n =
        .error (.otherError ("column not found: " ++ n))) := by
  unfold Statement.construct at hok
  by_cases hres : eng.result = SQLITE_OK
  · rw [if_pos hres] at hok
    injection hok with hst
    subst hst
    refine ⟨rfl, fun n => mapFind_initializeColumnIndices eng.columnNames n,
      fun eng2 => by simp only [step_post],
      fun i v eng2 => by simp only [Statement.bindInt, nativeCheckedCall_post],
      fun i v eng2 => by simp only [Statement.bindText, nativeCheckedCall_post],
      fun eng2 => by simp only [Statement.reset, nativeCheckedCall_post],
      fun eng2 => by simp only [Statement.clearBindings, nativeCheckedCall_post],
      fun i cell => by simp only [getString_post],
      fun eng2 => finalize_post_columnIndices _ eng2,
      fun n i hfind => by simp only [Statement.getColumnIndex, hfind],
      fun n hfind => by simp only [Statement.getColumnIndex, hfind]⟩
  · rw [if_neg hres] at hok
    exact Except.noConfusion hok

/-- Witness for C7: a concrete preparation with a duplicated column name
"a" at positions 0 and 2; the name resolves to the LAST position, 2. -/
theorem C7_column_indices_witness :
    Statement.construct "SELECT x AS a, y AS b, z AS a FROM t" false
      ⟨SQLITE_OK, some 4, [some "a", some "b", some "a"], ⟨0, 0, "", -1⟩⟩ =
      .ok ⟨some 4, initializeColumnIndices [some "a", some "b", some "a"]⟩ ∧
    mapFind (initializeColumnIndices [some "a", some "b", some "a"]) "a" =
      lastColumnOcc [some "a", some "b", some "a"] "a" ∧
    lastColumnOcc [some "a", some "b", some "a"] "a" = some 2 :=
  ⟨rfl,
    (C7_column_indices "SELECT x AS a, y AS b, z AS a FROM t" false
      ⟨SQLITE_OK, some 4, [some "a", some "b", some "a"], ⟨0, 0, "", -1⟩⟩
      ⟨some 4, initializeColumnIndices [some "a", some "b", some "a"]⟩
      rfl).2.1 "a",
    by decide⟩

/-- C8: on a prepared (non-null handle) Statement the five typed column
reads never raise for any engine response: the numeric reads pass the
engine's already-coerced value through unchanged, a null text pointer
yields the empty string, and the blob read returns the engine's
(pointer, size) pair verbatim — a null pointer giving the empty-blob
representation. -/
theorem C8_reads_never_fail (s : StmtState) (h : Nat) (hs : s.stmt = some h)
    (i : Int) (cell : ColumnCell) :
    (Statement.getInt s i cell).res = .ok cell.intVal ∧
    (Statement.getInt64 s i cell).res = .ok cell.int64Val ∧
    (Statement.getDouble s i cell).res = .ok cell.doubleBits ∧
    (cell.text = none → (Statement.getString s i cell).res = .ok "") ∧
    (∀ t, cell.text = some t → (Statement.getString s i cell).res = .ok t) ∧
    (Statement.getBlob s i cell).res = .ok ⟨cell.blobData, cell.bytes⟩ := by
  obtain ⟨st, m⟩ := s
  cases hs
  refine ⟨rfl, rfl, rfl, fun ht => ?_, fun t ht => ?_, rfl⟩
  · simp [Statement.getString, ht]
  · simp [Statement.getString, ht]

/-- Witness for C8: a concrete Null-valued cell (null text and blob
pointers, zero numerics) read on a prepared statement. -/
theorem C8_reads_never_fail_witness :
    (⟨some 2, []⟩ : StmtState).stmt = some 2 ∧
    (Statement.getString ⟨some 2, []⟩ 0 ⟨0, 0, 0, none, none, 0⟩).res =
      .ok "" ∧
    (Statement.getBlob ⟨some 2, []⟩ 0 ⟨0, 0, 0, none, none, 0⟩).res =
      .ok ⟨none, 0⟩ :=
  ⟨rfl,
    (C8_reads_never_fail ⟨some 2, []⟩ 2 rfl 0
      ⟨0, 0, 0, none, none, 0⟩).2.2.2.1 rfl,
    (C8_reads_never_fail ⟨some 2, []⟩ 2 rfl 0
      ⟨0, 0, 0, none, none, 0⟩).2.2.2.2.2⟩

/-- C10: a failing `open` raises the classified error while leaving the
connection's `db` member holding exactly the pointer the engine's open
call wrote; when that pointer is non-null the connection subsequently
reports itself open (`operator bool` is true) and its destructor attempts
a native close of that handle. -/
theorem C10_open_failure_keeps_handle (c : ConnState) (dbName : String)
    (flags : Int) (eng : OpenResp) (h : Nat)
    (hfail : eng.result ≠ SQLITE_OK) (hw : eng.writtenDb = some h) :
    SQLite.openDb c dbName flags eng =
      ⟨.error (throwSQLiteError eng.errState "failed to open database" ""),
        ⟨some h⟩, ["sqlite3_open_v2"]⟩ ∧
    connBool (SQLite.openDb c dbName flags eng).post = true ∧
    (∀ eng2 : CallResp,
      (SQLite.destruct (SQLite.openDb c dbName flags eng).post eng2).calls =
        ["sqlite3_close"]) := by
  have hopen : SQLite.openDb c dbName flags eng =
      ⟨.error (throwSQLiteError eng.errState "failed to open database" ""),
        ⟨some h⟩, ["sqlite3_open_v2"]⟩ := by
    simp [SQLite.openDb, hfail, hw]
  refine ⟨hopen, ?_, fun eng2 => ?_⟩
  · rw [hopen]; rfl
  · rw [hopen]
    by_cases h2 : eng2.result = SQLITE_OK <;>
      simp [SQLite.destruct, SQLite.close, h2]

/-- Witness for C10 at a concrete failed open (SQLITE_CANTOPEN = 14) that
wrote a non-null handle. -/
theorem C10_open_failure_keeps_handle_witness :
    (14 : Int) ≠ SQLITE_OK ∧
    SQLite.openDb ⟨none⟩ "missing.db" 0
        ⟨14, some 9, ⟨14, 14, "unable to open database file", -1⟩⟩ =
      ⟨.error (throwSQLiteError ⟨14, 14, "unable to open database file", -1⟩
          "failed to open database" ""),
        ⟨some 9⟩, ["sqlite3_open_v2"]⟩ :=
  ⟨by decide,
    (C10_open_failure_keeps_handle ⟨none⟩ "missing.db" 0
      ⟨14, some 9, ⟨14, 14, "unable to open database file", -1⟩⟩ 9
      (by decide) rfl).1⟩

end SQLiteCpp
